import Mathlib

/-!
Verification development for the ETL repository (Extract / Transform / Load
pipeline targeting PostgreSQL).

The embedding models the load engine of src/Load.py, the connection
management of src/Load.py, and the inspection commands of src/main.py and
src/postgres_env.py as pure functions: SQL statements become an explicit
statement type, the destination store becomes an association list of
tables, and the one-transaction semantics of psycopg2 (commit on normal
exit of the with-block, rollback on exception) becomes an explicit
rollback in load_dataframes. Failures of individual statements are an
explicit fault parameter, and server-side connection behavior is passed
in as parameters describing the outcome of each attempt.
-/

set_option maxHeartbeats 1000000

/-! ## Cells and dataframes (pandas values, src/Load.py) -/

/-- A scalar value held by a pandas DataFrame cell, as seen by the loader.
The constructor nan stands for the pandas missing markers (NaN / NaT),
which normalize_cell converts to SQL NULL before insertion. -/
inductive Cell
  | null
  | nan
  | intC (n : Int)
  | textC (s : String)
  | boolC (b : Bool)
  | timestampC (epochSeconds : Int)
deriving DecidableEq, Repr

/-- Model of Load.py _normalize_cell: pandas missing markers become a true
NULL, every other value passes through unchanged. -/
def normalize_cell : Cell → Cell
  | .nan => .null
  | c => c

/-- Model of a pandas DataFrame as the loader consumes it: an ordered list
of (column name, dtype name) pairs and row-major data, each row parallel
to the column list. -/
structure DataFrame where
  cols : List (String × String)
  rows : List (List Cell)
deriving DecidableEq, Repr

/-- Ordered column names of a dataframe. -/
def DataFrame.colNames (df : DataFrame) : List String :=
  df.cols.map Prod.fst

/-- Model of pandas DataFrame.empty: true when either axis has length zero. -/
def emptyDF (df : DataFrame) : Bool :=
  df.rows.isEmpty || df.cols.isEmpty

/-- Model of Load.py _DTYPE_TO_SQL. -/
def dtypeToSql : List (String × String) :=
  [("int64", "BIGINT"), ("Int64", "BIGINT"), ("float64", "DOUBLE PRECISION"),
   ("bool", "BOOLEAN"), ("datetime64[ns]", "TIMESTAMP")]

/-- Model of Load.py _column_sql_type: dictionary lookup with TEXT default. -/
def column_sql_type (dtype : String) : String :=
  ((dtypeToSql.find? (fun p => p.1 == dtype)).map Prod.snd).getD "TEXT"

/-! ## SQL statements issued by the repository -/

/-- The SQL statements the repository can issue, as an abstract syntax.
setSequence (an ALTER SEQUENCE / setval statement) is part of the
vocabulary so that its absence from every emitted trace can be stated;
the code under src/ never emits it. -/
inductive Stmt
  | dropTableCascade (table : String)
  | createTable (table : String) (columns : List (String × String))
  | insertRows (table : String) (columns : List String) (values : List (List Cell))
  | setSequence (table : String) (column : String) (nextValue : Int)
  | select1
  | selectTables
  | countRows (table : String)
  | selectLimit (table : String) (limit : Int)
  | createDatabase (database : String)
deriving DecidableEq, Repr

/-- Errors raised while loading. -/
inductive Err
  | operationalError (message : String)
  | faultAt (st : Stmt)
  | execError (st : Stmt)
deriving DecidableEq, Repr

/-! ## The destination store -/

/-- A destination table: its column schema (name, SQL type) and its rows. -/
structure Table where
  schema : List (String × String)
  rows : List (List Cell)
deriving DecidableEq, Repr

/-- The destination store: an association list from table name to table.
Lookup takes the first entry with the given name. -/
abbrev Store := List (String × Table)

/-- Lookup of a table by name. -/
def lookupT : Store → String → Option Table
  | [], _ => none
  | (n, t) :: rest, m => if m = n then some t else lookupT rest m

/-- Effect of DROP TABLE IF EXISTS ... CASCADE: remove every entry with the
given name. -/
def dropT : Store → String → Store
  | [], _ => []
  | (pn, pt) :: rest, n => if pn = n then dropT rest n else (pn, pt) :: dropT rest n

/-- Replace the table stored under an existing name. -/
def updateT : Store → String → Table → Store
  | [], _, _ => []
  | (pn, pt) :: rest, n, t =>
      if pn = n then (n, t) :: updateT rest n t else (pn, pt) :: updateT rest n t

/-- Execute one statement against the store.  A fault oracle decides which
statements raise (modelling an injected psycopg2 error); reads leave the
store unchanged; DDL and DML behave as PostgreSQL does on the statements
this repository emits. -/
def applyStmt (fault : Stmt → Bool) (s : Store) (st : Stmt) : Except Err Store :=
  if fault st then .error (.faultAt st) else
  match st with
  | .dropTableCascade n => .ok (dropT s n)
  | .createTable n cols =>
      if (lookupT s n).isSome then .error (.execError st)
      else .ok ((n, ⟨cols, []⟩) :: s)
  | .insertRows n cols vals =>
      match lookupT s n with
      | none => .error (.execError st)
      | some t =>
          if cols == t.schema.map Prod.fst
              && vals.all (fun r => r.length == cols.length) then
            .ok (updateT s n ⟨t.schema, t.rows ++ vals⟩)
          else .error (.execError st)
  | .setSequence _ _ _ => .ok s
  | _ => .ok s

/-- Execute a list of statements in order, stopping at the first error. -/
def runStmts (fault : Stmt → Bool) : Store → List Stmt → Except Err Store
  | s, [] => .ok s
  | s, st :: rest =>
      match applyStmt fault s st with
      | .ok s' => runStmts fault s' rest
      | .error e => .error e

/-! ## Statements emitted by the loader (src/Load.py) -/

/-- Column definitions of the CREATE TABLE statement built by Load.py
_ensure_table: every dataframe column with its mapped SQL type, or the
fallback id SERIAL PRIMARY KEY when the dataframe has no columns. -/
def createColumns (df : DataFrame) : List (String × String) :=
  if df.cols.isEmpty then [("id", "SERIAL PRIMARY KEY")]
  else df.cols.map (fun cd => (cd.1, column_sql_type cd.2))

/-- Model of Load.py _ensure_table: drop the table with CASCADE, then
recreate it from the dataframe columns. -/
def ensureTableStmts (n : String) (df : DataFrame) : List Stmt :=
  [.dropTableCascade n, .createTable n (createColumns df)]

/-- Rows as inserted: every cell normalized. -/
def normalizedRows (df : DataFrame) : List (List Cell) :=
  df.rows.map (fun r => r.map normalize_cell)

/-- Model of Load.py _insert_rows: nothing when the dataframe is empty,
otherwise one bulk insert listing exactly the dataframe columns. -/
def insertStmts (n : String) (df : DataFrame) : List Stmt :=
  if emptyDF df then []
  else [.insertRows n df.colNames (normalizedRows df)]

/-- The statements the loop body of load_dataframes issues for one table. -/
def blockStmts (n : String) (df : DataFrame) : List Stmt :=
  ensureTableStmts n df ++ insertStmts n df

/-- All statements load_dataframes issues inside its single transaction,
iterating the input mapping in its order. -/
def loadStmts : List (String × DataFrame) → List Stmt
  | [] => []
  | (n, df) :: rest => blockStmts n df ++ loadStmts rest

/-- The table that a successful block leaves in the store for a dataframe. -/
def tableOf (df : DataFrame) : Table :=
  ⟨createColumns df, if emptyDF df then [] else normalizedRows df⟩

/-- Drop any previous table of this name and store a fresh one. -/
def putTable (s : Store) (n : String) (t : Table) : Store :=
  (n, t) :: dropT s n

/-- Store after a fault-free run: each input table dropped and recreated in
order. -/
def applyTables : Store → List (String × DataFrame) → Store
  | s, [] => s
  | s, (n, df) :: rest => applyTables (putTable s n (tableOf df)) rest

/-! ## Connection probe and load_dataframes (src/Load.py) -/

/-- A database connection, abstracted to whether it can execute a query. -/
structure Conn where
  alive : Bool
deriving DecidableEq, Repr

/-- Model of Load.py check_connection: SELECT 1 succeeds exactly on a live
connection, and the function reports success without raising. -/
def check_connection (c : Conn) : Bool :=
  c.alive

/-- Model of Load.py load_dataframes: probe the connection first and raise
an operational error without touching the store when the probe fails;
otherwise run all per-table statements inside one transaction, committing
the staged store on success and rolling back to the original store when
any statement raises. -/
def load_dataframes (fault : Stmt → Bool) (c : Conn) (s : Store)
    (tables : List (String × DataFrame)) : Except Err Unit × Store :=
  if check_connection c then
    match runStmts fault s (loadStmts tables) with
    | .ok staged => (.ok (), staged)
    | .error e => (.error e, s)
  else (.error (.operationalError "Database connection test failed"), s)

/-- Whether a load result is a success. -/
def resultOk : Except Err Unit → Bool
  | .ok _ => true
  | .error _ => false

/-! ## Trace extractors used to state claims about emitted statements -/

/-- Tables named by DROP statements, in order. -/
def dropTargets : List Stmt → List String
  | [] => []
  | .dropTableCascade n :: rest => n :: dropTargets rest
  | _ :: rest => dropTargets rest

/-- Tables named by INSERT statements, in order. -/
def insertTargets : List Stmt → List String
  | [] => []
  | .insertRows n _ _ :: rest => n :: insertTargets rest
  | _ :: rest => insertTargets rest

/-- Table and column list of each CREATE TABLE statement, in order. -/
def createColumnsPairs : List Stmt → List (String × List String)
  | [] => []
  | .createTable n cols :: rest => (n, cols.map Prod.fst) :: createColumnsPairs rest
  | _ :: rest => createColumnsPairs rest

/-- Table and column list of each INSERT statement, in order. -/
def insertColumnsPairs : List Stmt → List (String × List String)
  | [] => []
  | .insertRows n cols _ :: rest => (n, cols) :: insertColumnsPairs rest
  | _ :: rest => insertColumnsPairs rest

/-- The sequence-adjustment statements of a trace. -/
def seqStmts : List Stmt → List Stmt
  | [] => []
  | .setSequence t c v :: rest => .setSequence t c v :: seqStmts rest
  | _ :: rest => seqStmts rest

/-! ## Process environment (src/Load.py set_postgres_env, src/postgres_env.py) -/

/-- The process environment: os.getenv returns none for an unset key. -/
abbrev Env := String → Option String

/-- Model of the test `value in (None, "")` used by the repository for both
environment resolution and default population. -/
def isMissing : Option String → Bool
  | none => true
  | some v => v == ""

/-- Model of postgres_env.py pos_POSTGRES_ENV_DEFAULTS (also re-exported by
Load.py as _POSTGRES_ENV_DEFAULTS). -/
def postgresEnvDefaults : List (String × String) :=
  [("POSTGRES_USER", "etl_user"), ("POSTGRES_PASSWORD", "etl_password"),
   ("POSTGRES_HOST", "127.0.0.1"), ("POSTGRES_PORT", "5432"),
   ("POSTGRES_DATABASE", "etl_db")]

/-- Update one key of an association list the way a Python dict assignment
does: replace the value in place when the key exists, append otherwise. -/
def setAssoc (l : List (String × String)) (k v : String) : List (String × String) :=
  if l.any (fun p => p.1 == k) then l.map (fun p => if p.1 == k then (k, v) else p)
  else l ++ [(k, v)]

/-- Model of Python dict(base) followed by .update(upd). -/
def updateAssoc (base upd : List (String × String)) : List (String × String) :=
  upd.foldl (fun acc kv => setAssoc acc kv.1 kv.2) base

/-- Model of the loop body of Load.py set_postgres_env: walk the mapping in
order; write a key when overwrite is set or the current value is absent or
empty, recording every write in order. -/
def applyEnvVars (overwrite : Bool) : List (String × String) → Env → Env × List (String × String)
  | [], env => (env, [])
  | (k, v) :: rest, env =>
      if overwrite || isMissing (env k) then
        let res := applyEnvVars overwrite rest (fun m => if m = k then some v else env m)
        (res.1, (k, v) :: res.2)
      else applyEnvVars overwrite rest env

/-- Model of Load.py set_postgres_env: defaults overridden by the supplied
mapping, then applied to the environment; returns the new environment and
the key/value pairs written. -/
def set_postgres_env (varsMap : List (String × String)) (overwrite : Bool)
    (env : Env) : Env × List (String × String) :=
  applyEnvVars overwrite (updateAssoc postgresEnvDefaults varsMap) env

/-- The value of the chronologically last write of a key in a write list. -/
def lastWrite : List (String × String) → String → Option String
  | [], _ => none
  | (k, v) :: rest, m =>
      match lastWrite rest m with
      | some w => some w
      | none => if k = m then some v else none

/-- Model of main.py _ensure_env_defaults: populate missing defaults. -/
def ensureEnvDefaults (env : Env) : Env :=
  (set_postgres_env [] false env).1

/-! ## Connection configuration (src/Load.py build_connection_from_env) -/

/-- The five required key suffixes, in the order the repository checks them. -/
def requiredKeys : List String :=
  ["USER", "PASSWORD", "HOST", "PORT", "DATABASE"]

/-- The required key suffixes whose environment value is absent or empty. -/
def missingKeys (pfx : String) (env : Env) : List String :=
  requiredKeys.filter (fun k => isMissing (env (pfx ++ "_" ++ k)))

/-! ## Connecting with database auto-creation (src/Load.py) -/

/-- Why the server rejected a connection attempt.  The cause is the
server-side ground truth; the code under src/ can only observe the message
text. -/
inductive ErrCause
  | databaseMissing
  | otherCause (description : String)
deriving DecidableEq, Repr

/-- A psycopg2 OperationalError as observed by the repository: the server
side cause together with the message text str(error) yields. -/
structure OpError where
  cause : ErrCause
  msg : String
deriving DecidableEq, Repr

/-- Outcome of one psycopg2.connect attempt. -/
inductive ConnectRes
  | ok
  | opFail (e : OpError)
  | otherFail (description : String)
deriving DecidableEq, Repr

/-- Outcome of _ensure_database_exists: the admin connection may fail
before CREATE DATABASE is issued, and the CREATE itself may succeed, race
with a concurrent creator, or fail. -/
inductive CreateRes
  | created
  | duplicateDatabase
  | adminConnectFailed (description : String)
  | createFailed (description : String)
deriving DecidableEq, Repr

/-- Result of _connect_with_database_creation. -/
inductive ConnResult
  | connectedFirst
  | connectedRetry
  | raisedOp (e : OpError)
  | raisedOther (description : String)
deriving DecidableEq, Repr

/-- Character-list prefix test. -/
def prefixChars : List Char → List Char → Bool
  | [], _ => true
  | _ :: _, [] => false
  | a :: as, b :: bs => a == b && prefixChars as bs

/-- Character-list substring test. -/
def containsChars (needle : List Char) : List Char → Bool
  | [] => prefixChars needle []
  | c :: rest => prefixChars needle (c :: rest) || containsChars needle rest

/-- Model of the guard in _connect_with_database_creation: the lowercased
message of the operational error contains the text "does not exist". -/
def msgSaysDoesNotExist (msg : String) : Bool :=
  containsChars "does not exist".toList (msg.toList.map Char.toLower)

/-- Outcome of the single retry after the auto-creation step. -/
def retryOutcome : ConnectRes → ConnResult
  | .ok => .connectedRetry
  | .opFail e => .raisedOp e
  | .otherFail d => .raisedOther d

/-- The canonical PostgreSQL message for a missing database. -/
def missingDbMessage (db : String) : String :=
  "FATAL:  database \"" ++ db ++ "\" does not exist"

/-- Model of Load.py _connect_with_database_creation, parameterized by the
outcome of the first connect attempt, of the auto-creation step, and of
the retry.  Returns the result together with the statements issued against
the administrative database. -/
def connect_with_database_creation (db : String) (first : ConnectRes)
    (createRes : CreateRes) (second : ConnectRes) : ConnResult × List Stmt :=
  match first with
  | .ok => (.connectedFirst, [])
  | .otherFail d => (.raisedOther d, [])
  | .opFail e =>
      if msgSaysDoesNotExist e.msg then
        match createRes with
        | .created => (retryOutcome second, [.createDatabase db])
        | .duplicateDatabase => (retryOutcome second, [.createDatabase db])
        | .adminConnectFailed _ => (.raisedOp e, [])
        | .createFailed _ => (.raisedOp e, [.createDatabase db])
      else (.raisedOp e, [])

/-- Accumulating decimal parse of a digit sequence. -/
def digitsToNat (cs : List Char) (acc : Nat) : Option Nat :=
  match cs with
  | [] => some acc
  | c :: rest => if c.isDigit then digitsToNat rest (acc * 10 + (c.toNat - 48)) else none

/-- Model of the Python int() conversion applied to the port text: an
optional sign followed by at least one decimal digit; anything else
raises. -/
def parseIntText (s : String) : Option Int :=
  match s.toList with
  | [] => none
  | '-' :: rest =>
      match rest with
      | [] => none
      | _ => (digitsToNat rest 0).map (fun n => -(n : Int))
  | cs => (digitsToNat cs 0).map (fun n => (n : Int))

/-- Result of build_connection_from_env. -/
inductive BuildResult
  | configError (names : List String)
  | invalidPort (portText : String)
  | connOutcome (r : ConnResult)
deriving DecidableEq, Repr

/-- Model of Load.py build_connection_from_env: read the five required
environment values, raise a ValueError naming every absent or empty one,
parse the port, then connect with the auto-creation fallback.  The second
component is the trace of administrative statements issued. -/
def build_connection_from_env (pfx : String) (env : Env) (first : ConnectRes)
    (createRes : CreateRes) (second : ConnectRes) : BuildResult × List Stmt :=
  let missing := missingKeys pfx env
  if missing.isEmpty then
    let portText := (env (pfx ++ "_PORT")).getD ""
    match parseIntText portText with
    | none => (.invalidPort portText, [])
    | some _ =>
        let db := (env (pfx ++ "_DATABASE")).getD ""
        let res := connect_with_database_creation db first createRes second
        (.connOutcome res.1, res.2)
  else (.configError (missing.map (fun k => pfx ++ "_" ++ k)), [])

/-- The error message text of the ValueError raised for missing
configuration, exactly as build_connection_from_env formats it. -/
def missingVarsMessage (names : List String) : String :=
  "Missing required environment variables: " ++ String.intercalate ", " names

/-! ## CLI commands (src/main.py, src/postgres_env.py) -/

/-- Whether a connection was eventually obtained. -/
def connectedB : ConnResult → Bool
  | .connectedFirst => true
  | .connectedRetry => true
  | _ => false

/-- Model of postgres_env.py table_preview: raises before issuing anything
when the limit is not positive, otherwise one SELECT ... LIMIT. -/
def tablePreviewStmts (t : String) (lim : Int) : List Stmt :=
  if lim ≤ 0 then [] else [.selectLimit t lim]

/-- The query statements a CLI command issues once the connection step has
finished: nothing unless a connection was obtained. -/
def connQueries (b : BuildResult) (reads : List Stmt) : List Stmt :=
  match b with
  | .connOutcome r => if connectedB r then reads else []
  | _ => []

/-- Statements the tables command issues: populate env defaults, connect
through build_connection_from_env (whose trace may include database
auto-creation), then list tables and count rows of each. -/
def commandTablesTrace (env : Env) (first : ConnectRes) (createRes : CreateRes)
    (second : ConnectRes) (names : List String) : List Stmt :=
  let env' := ensureEnvDefaults env
  let res := build_connection_from_env "POSTGRES" env' first createRes second
  res.2 ++ connQueries res.1 (.selectTables :: names.map (fun t => .countRows t))

/-- Statements the preview command issues. -/
def commandPreviewTrace (env : Env) (first : ConnectRes) (createRes : CreateRes)
    (second : ConnectRes) (t : String) (lim : Int) : List Stmt :=
  let env' := ensureEnvDefaults env
  let res := build_connection_from_env "POSTGRES" env' first createRes second
  res.2 ++ connQueries res.1 (tablePreviewStmts t lim)

/-- Statements the overview command issues; tableCounts pairs each listed
table with its row count, and previews are issued only for tables with
rows.  Iterations after a preview error are included, an over-approximation
that only adds read statements. -/
def commandOverviewTrace (env : Env) (first : ConnectRes) (createRes : CreateRes)
    (second : ConnectRes) (tableCounts : List (String × Nat)) (lim : Int) : List Stmt :=
  let env' := ensureEnvDefaults env
  let res := build_connection_from_env "POSTGRES" env' first createRes second
  res.2 ++
    connQueries res.1
      (.selectTables ::
        tableCounts.foldr
          (fun p acc =>
            .countRows p.1 :: ((if p.2 = 0 then [] else tablePreviewStmts p.1 lim) ++ acc))
          [])

/-- Whether a statement changes persisted server state (schema, rows, or
the database catalog), as opposed to a pure read. -/
def mutating : Stmt → Bool
  | .dropTableCascade _ => true
  | .createTable _ _ => true
  | .insertRows _ _ _ => true
  | .setSequence _ _ _ => true
  | .createDatabase _ => true
  | .select1 => false
  | .selectTables => false
  | .countRows _ => false
  | .selectLimit _ _ => false

/-! ## Modelled pieces of the specification

The specification describes a Schema Registry with a declared dependency
graph and per-table destination column lists.  No such component exists
under src/; these definitions are from the words of the specification and
are used only to compare the specified behavior with the code. -/

/-- Modelled from the spec: the Schema Registry dependency graph is not in
src/ (the code has no registry); from the words of the spec, order line
items reference orders and orders reference customers. -/
def specRegistryDependsOn : String → List String
  | "orders" => ["customers"]
  | "order_items" => ["orders"]
  | _ => []

/-- Modelled from the spec: the declared destination column list of the
derived summary table. -/
def specColumnsFor : String → List String
  | "order_summary" =>
      ["order_id", "order_date", "customer_id", "customer_name", "order_total"]
  | _ => []

/-! ## Derived notions used to state the theorems -/

/-- The dataframe of the chronologically last block that targets a name. -/
def lastDF : List (String × DataFrame) → String → Option DataFrame
  | [], _ => none
  | (n, df) :: rest, m =>
      match lastDF rest m with
      | some d => some d
      | none => if n = m then some df else none

/-! ## Concrete inputs used by witnesses and counterexamples -/

/-- A small customers dataframe. -/
def dfCustomers : DataFrame :=
  ⟨[("customer_id", "int64"), ("customer_name", "object")],
   [[.intC 1, .textC "Ann"]]⟩

/-- A small orders dataframe referencing the customer. -/
def dfOrders : DataFrame :=
  ⟨[("order_id", "int64"), ("customer_id", "int64")],
   [[.intC 1, .intC 1]]⟩

/-- A small order line items dataframe referencing the order. -/
def dfOrderItems : DataFrame :=
  ⟨[("order_id", "int64"), ("item_id", "int64")],
   [[.intC 1, .intC 1]]⟩

/-- A staffs dataframe whose identity column carries explicit ids 1..3. -/
def dfStaffs : DataFrame :=
  ⟨[("staff_id", "int64"), ("staff_name", "object")],
   [[.intC 1, .textC "a"], [.intC 2, .textC "b"], [.intC 3, .textC "c"]]⟩

/-- A summary dataframe with a column the declared destination schema of
order_summary does not contain, and without most declared columns. -/
def dfSummaryExtra : DataFrame :=
  ⟨[("order_id", "int64"), ("extra", "object")],
   [[.intC 1, .textC "x"]]⟩

/-- Parent before child, with distinct names. -/
def exTables : List (String × DataFrame) :=
  [("customers", dfCustomers), ("orders", dfOrders)]

/-- Child listed before its parent. -/
def exChildFirst : List (String × DataFrame) :=
  [("order_items", dfOrderItems), ("orders", dfOrders)]

/-- Single staffs table. -/
def exStaffs : List (String × DataFrame) :=
  [("staffs", dfStaffs)]

/-- Single summary table. -/
def exSummary : List (String × DataFrame) :=
  [("order_summary", dfSummaryExtra)]

/-- A fault oracle that makes the insert into orders raise. -/
def exFault : Stmt → Bool := fun st =>
  match st with
  | .insertRows "orders" _ _ => true
  | _ => false

/-- The fault oracle of a run in which no statement raises. -/
def noFault : Stmt → Bool := fun _ => false

/-- A connection that passes the liveness probe. -/
def liveConn : Conn := ⟨true⟩

/-- An environment with HOST absent and PASSWORD empty, the other three
required values present and non-empty. -/
def exEnvPartial : Env := fun k =>
  if k = "POSTGRES_USER" then some "etl_user"
  else if k = "POSTGRES_PASSWORD" then some ""
  else if k = "POSTGRES_PORT" then some "5432"
  else if k = "POSTGRES_DATABASE" then some "etl_db"
  else none

/-- An operational error that is not about a missing database but whose
message contains the text the guard looks for. -/
def roleError : OpError :=
  ⟨.otherCause "role missing", "FATAL:  role \"etl_user\" does not exist"⟩

/-- An operational error without the guarded text. -/
def otherOpError : OpError :=
  ⟨.otherCause "auth failed",
   "FATAL:  password authentication failed for user \"etl_user\""⟩

/-- The missing-database operational error with its canonical message. -/
def missingDbError : OpError :=
  ⟨.databaseMissing, missingDbMessage "etl_db"⟩

/-- A process environment with nothing set. -/
def emptyEnv : Env := fun _ => none

/-- An override mapping for set_postgres_env. -/
def exVarsMap : List (String × String) :=
  [("POSTGRES_HOST", "db.example"), ("APP_FLAG", "on")]

/-- An environment where USER already has a non-empty value and PASSWORD
holds the empty string. -/
def exEnvPre : Env := fun k =>
  if k = "POSTGRES_USER" then some "keepme"
  else if k = "POSTGRES_PASSWORD" then some ""
  else none

/-! ## Store lemmas -/

theorem lookupT_dropT (s : Store) (n m : String) :
    lookupT (dropT s n) m = if m = n then none else lookupT s m := by
  induction s with
  | nil => simp [dropT, lookupT]
  | cons p rest ih =>
      obtain ⟨pn, pt⟩ := p
      by_cases h1 : pn = n <;> by_cases h2 : m = pn <;>
        simp [dropT, lookupT, h1, h2, ih] <;> simp_all

theorem updateT_dropT_self (s : Store) (n : String) (t : Table) :
    updateT (dropT s n) n t = dropT s n := by
  induction s with
  | nil => rfl
  | cons p rest ih =>
      obtain ⟨pn, pt⟩ := p
      by_cases h1 : pn = n <;> simp [dropT, updateT, h1, ih]

theorem lookupT_putTable (s : Store) (n : String) (t : Table) (m : String) :
    lookupT (putTable s n t) m = if m = n then some t else lookupT s m := by
  by_cases h : m = n <;> simp [putTable, lookupT, h, lookupT_dropT]

/-! ## Transaction run lemmas -/

theorem runStmts_append (fault : Stmt → Bool) (s : Store) (xs ys : List Stmt) :
    runStmts fault s (xs ++ ys) =
      match runStmts fault s xs with
      | .ok s' => runStmts fault s' ys
      | .error e => .error e := by
  induction xs generalizing s with
  | nil => simp [runStmts]
  | cons st rest ih =>
      simp only [List.cons_append, runStmts]
      cases happ : applyStmt fault s st with
      | ok s' => simp [happ, ih]
      | error e => simp [happ]

theorem createColumns_names (df : DataFrame) (h : df.cols.isEmpty = false) :
    (createColumns df).map Prod.fst = df.colNames := by
  simp [createColumns, h, DataFrame.colNames, List.map_map]

theorem block_run (fault : Stmt → Bool) (n : String) (df : DataFrame) :
    (∃ e, ∀ s : Store, runStmts fault s (blockStmts n df) = .error e) ∨
    (∀ s : Store, runStmts fault s (blockStmts n df) = .ok (putTable s n (tableOf df))) := by
  by_cases h1 : fault (.dropTableCascade n)
  · exact Or.inl ⟨.faultAt (.dropTableCascade n), fun s => by
      simp [blockStmts, ensureTableStmts, runStmts, applyStmt, h1]⟩
  by_cases h2 : fault (.createTable n (createColumns df))
  · exact Or.inl ⟨.faultAt (.createTable n (createColumns df)), fun s => by
      simp [blockStmts, ensureTableStmts, runStmts, applyStmt, h1, h2]⟩
  by_cases hemp : emptyDF df
  · refine Or.inr (fun s => ?_)
    simp [blockStmts, ensureTableStmts, insertStmts, hemp, runStmts, applyStmt,
      h1, h2, lookupT_dropT, putTable, tableOf]
  by_cases h3 : fault (.insertRows n df.colNames (normalizedRows df))
  · exact Or.inl ⟨.faultAt (.insertRows n df.colNames (normalizedRows df)), fun s => by
      simp [blockStmts, ensureTableStmts, insertStmts, hemp, runStmts, applyStmt,
        h1, h2, h3, lookupT_dropT]⟩
  have hcols : df.cols.isEmpty = false := by
    simp [emptyDF] at hemp
    cases hdf : df.cols with
    | nil => exact absurd hdf hemp.2
    | cons a l => simp [hdf]
  by_cases h4 : (normalizedRows df).all (fun r => r.length == df.colNames.length)
  · refine Or.inr (fun s => ?_)
    simp [blockStmts, ensureTableStmts, insertStmts, hemp, runStmts, applyStmt,
      h1, h2, h3, lookupT_dropT, lookupT, createColumns_names df hcols, h4,
      updateT, updateT_dropT_self, putTable, tableOf]
  · refine Or.inl ⟨.execError (.insertRows n df.colNames (normalizedRows df)), fun s => ?_⟩
    simp [blockStmts, ensureTableStmts, insertStmts, hemp, runStmts, applyStmt,
      h1, h2, h3, lookupT_dropT, lookupT, createColumns_names df hcols, h4]

theorem load_run (fault : Stmt → Bool) (tables : List (String × DataFrame)) :
    (∃ e, ∀ s : Store, runStmts fault s (loadStmts tables) = .error e) ∨
    (∀ s : Store, runStmts fault s (loadStmts tables) = .ok (applyTables s tables)) := by
  induction tables with
  | nil => exact Or.inr (fun s => by simp [loadStmts, runStmts, applyTables])
  | cons p rest ih =>
      obtain ⟨n, df⟩ := p
      rcases block_run fault n df with ⟨e, he⟩ | hok
      · refine Or.inl ⟨e, fun s => ?_⟩
        rw [show loadStmts ((n, df) :: rest) = blockStmts n df ++ loadStmts rest from rfl,
          runStmts_append, he s]
      · rcases ih with ⟨e, he⟩ | hr
        · refine Or.inl ⟨e, fun s => ?_⟩
          rw [show loadStmts ((n, df) :: rest) = blockStmts n df ++ loadStmts rest from rfl,
            runStmts_append, hok s]
          exact he _
        · refine Or.inr (fun s => ?_)
          rw [show loadStmts ((n, df) :: rest) = blockStmts n df ++ loadStmts rest from rfl,
            runStmts_append, hok s]
          exact hr _

/-! ## Final-store lemmas -/

theorem lastDF_eq_none (tables : List (String × DataFrame)) (m : String)
    (h : m ∉ tables.map Prod.fst) : lastDF tables m = none := by
  induction tables with
  | nil => rfl
  | cons p rest ih =>
      obtain ⟨n, df⟩ := p
      simp only [List.map_cons, List.mem_cons] at h
      push_neg at h
      simp [lastDF, ih h.2, Ne.symm h.1]

theorem lastDF_of_mem (tables : List (String × DataFrame)) (n : String) (df : DataFrame)
    (hmem : (n, df) ∈ tables) (hnd : (tables.map Prod.fst).Nodup) :
    lastDF tables n = some df := by
  induction tables with
  | nil => simp at hmem
  | cons p rest ih =>
      obtain ⟨pn, pdf⟩ := p
      simp only [List.map_cons, List.nodup_cons] at hnd
      rcases List.mem_cons.mp hmem with heq | hrest
      · cases heq
        simp [lastDF, lastDF_eq_none rest n hnd.1]
      · simp [lastDF, ih hrest hnd.2]

theorem lookupT_applyTables (tables : List (String × DataFrame)) (s : Store) (m : String) :
    lookupT (applyTables s tables) m =
      match lastDF tables m with
      | some df => some (tableOf df)
      | none => lookupT s m := by
  induction tables generalizing s with
  | nil => simp [applyTables, lastDF]
  | cons p rest ih =>
      obtain ⟨n, df⟩ := p
      simp only [applyTables, lastDF]
      rw [ih]
      cases hl : lastDF rest m with
      | some d => simp
      | none =>
          simp only [lookupT_putTable]
          by_cases h : m = n
          · simp [h]
          · rw [if_neg h, if_neg (fun hh : n = m => h hh.symm)]

theorem map_congr_mem {α β : Type} (l : List α) (f g : α → β)
    (h : ∀ a ∈ l, f a = g a) : l.map f = l.map g := by
  induction l with
  | nil => rfl
  | cons x xs ih =>
      simp only [List.map_cons]
      rw [h x (List.mem_cons_self x xs), ih (fun a ha => h a (List.mem_cons_of_mem x ha))]

/-! ## Trace extractor lemmas -/

theorem dropTargets_append (xs ys : List Stmt) :
    dropTargets (xs ++ ys) = dropTargets xs ++ dropTargets ys := by
  induction xs with
  | nil => rfl
  | cons st rest ih => cases st <;> simp [dropTargets, ih]

theorem insertTargets_append (xs ys : List Stmt) :
    insertTargets (xs ++ ys) = insertTargets xs ++ insertTargets ys := by
  induction xs with
  | nil => rfl
  | cons st rest ih => cases st <;> simp [insertTargets, ih]

theorem createColumnsPairs_append (xs ys : List Stmt) :
    createColumnsPairs (xs ++ ys) = createColumnsPairs xs ++ createColumnsPairs ys := by
  induction xs with
  | nil => rfl
  | cons st rest ih => cases st <;> simp [createColumnsPairs, ih]

theorem insertColumnsPairs_append (xs ys : List Stmt) :
    insertColumnsPairs (xs ++ ys) = insertColumnsPairs xs ++ insertColumnsPairs ys := by
  induction xs with
  | nil => rfl
  | cons st rest ih => cases st <;> simp [insertColumnsPairs, ih]

theorem seqStmts_append (xs ys : List Stmt) :
    seqStmts (xs ++ ys) = seqStmts xs ++ seqStmts ys := by
  induction xs with
  | nil => rfl
  | cons st rest ih => cases st <;> simp [seqStmts, ih]

theorem dropTargets_block (n : String) (df : DataFrame) :
    dropTargets (blockStmts n df) = [n] := by
  by_cases h : emptyDF df <;>
    simp [blockStmts, ensureTableStmts, insertStmts, h, dropTargets]

theorem insertTargets_block (n : String) (df : DataFrame) :
    insertTargets (blockStmts n df) = if emptyDF df then [] else [n] := by
  by_cases h : emptyDF df <;>
    simp [blockStmts, ensureTableStmts, insertStmts, h, insertTargets]

theorem createColumnsPairs_block (n : String) (df : DataFrame) :
    createColumnsPairs (blockStmts n df) =
      [(n, if df.cols.isEmpty then ["id"] else df.colNames)] := by
  by_cases h : emptyDF df <;> by_cases hc : df.cols.isEmpty <;>
    simp [blockStmts, ensureTableStmts, insertStmts, h, hc, createColumnsPairs,
      createColumns, DataFrame.colNames, List.map_map]

theorem insertColumnsPairs_block (n : String) (df : DataFrame) :
    insertColumnsPairs (blockStmts n df) =
      if emptyDF df then [] else [(n, df.colNames)] := by
  by_cases h : emptyDF df <;>
    simp [blockStmts, ensureTableStmts, insertStmts, h, insertColumnsPairs]

theorem seqStmts_block (n : String) (df : DataFrame) :
    seqStmts (blockStmts n df) = [] := by
  by_cases h : emptyDF df <;>
    simp [blockStmts, ensureTableStmts, insertStmts, h, seqStmts]

/-! ## Connection and CLI trace lemmas -/

theorem build_ok_trace (pfx : String) (env : Env) (createRes : CreateRes)
    (second : ConnectRes) :
    (build_connection_from_env pfx env .ok createRes second).2 = [] := by
  simp only [build_connection_from_env]
  split
  · split
    · rfl
    · simp [connect_with_database_creation]
  · rfl

theorem connQueries_all (b : BuildResult) (reads : List Stmt)
    (h : reads.all (fun st => !(mutating st)) = true) :
    (connQueries b reads).all (fun st => !(mutating st)) = true := by
  cases b with
  | connOutcome r =>
      by_cases hc : connectedB r = true <;> simp [connQueries, hc, h]
  | configError names => rfl
  | invalidPort s => rfl

theorem mutating_countRows (t : String) : mutating (.countRows t) = false := rfl

theorem mutating_selectTables : mutating .selectTables = false := rfl

theorem mutating_selectLimit (t : String) (lim : Int) :
    mutating (.selectLimit t lim) = false := rfl

theorem reads_tables_all (names : List String) :
    (Stmt.selectTables :: names.map (fun t => Stmt.countRows t)).all
      (fun st => !(mutating st)) = true := by
  simp [List.all_eq_true, mutating]

theorem reads_preview_all (t : String) (lim : Int) :
    (tablePreviewStmts t lim).all (fun st => !(mutating st)) = true := by
  by_cases h : lim ≤ 0 <;> simp [tablePreviewStmts, h, mutating]

theorem reads_overview_all (tcs : List (String × Nat)) (lim : Int) :
    (Stmt.selectTables ::
      tcs.foldr
        (fun p acc =>
          Stmt.countRows p.1 :: ((if p.2 = 0 then [] else tablePreviewStmts p.1 lim) ++ acc))
        []).all (fun st => !(mutating st)) = true := by
  have hmain : ∀ l : List (String × Nat),
      (l.foldr
        (fun p acc =>
          Stmt.countRows p.1 :: ((if p.2 = 0 then [] else tablePreviewStmts p.1 lim) ++ acc))
        []).all (fun st => !(mutating st)) = true := by
    intro l
    induction l with
    | nil => rfl
    | cons p rest ih =>
        by_cases h0 : p.2 = 0
        · simp [h0, ih, mutating_countRows, -List.all_eq_true]
        · simp [h0, ih, mutating_countRows, reads_preview_all, -List.all_eq_true]
  simp only [List.all_cons, hmain tcs, Bool.and_true]
  rfl


/-! ## Environment population lemmas -/

theorem applyEnvVars_keep (l : List (String × String)) (env : Env) (k : String)
    (h : isMissing (env k) = false) :
    (applyEnvVars false l env).1 k = env k := by
  induction l generalizing env with
  | nil => rfl
  | cons kv rest ih =>
      obtain ⟨k0, v0⟩ := kv
      by_cases h0 : isMissing (env k0) = true
      · have hk : k ≠ k0 := fun he => by rw [he, h0] at h; cases h
        have hstep : (applyEnvVars false ((k0, v0) :: rest) env).1 =
            (applyEnvVars false rest (fun m => if m = k0 then some v0 else env m)).1 := by
          simp [applyEnvVars, h0]
        rw [hstep, ih (fun m => if m = k0 then some v0 else env m) (by simpa [hk] using h)]
        simp [hk]
      · have hstep : (applyEnvVars false ((k0, v0) :: rest) env).1 =
            (applyEnvVars false rest env).1 := by
          simp [applyEnvVars, h0]
        rw [hstep]
        exact ih env h

theorem applyEnvVars_wrote_missing (l : List (String × String)) (env : Env)
    (k v : String) (hmem : (k, v) ∈ (applyEnvVars false l env).2) :
    isMissing (env k) = true := by
  induction l generalizing env with
  | nil => cases hmem
  | cons kv rest ih =>
      obtain ⟨k0, v0⟩ := kv
      by_cases h0 : isMissing (env k0) = true
      · have hshape : (applyEnvVars false ((k0, v0) :: rest) env).2 =
            (k0, v0) :: (applyEnvVars false rest (fun m => if m = k0 then some v0 else env m)).2 := by
          simp [applyEnvVars, h0]
        rw [hshape] at hmem
        rcases List.mem_cons.mp hmem with heq | hrest
        · cases heq
          exact h0
        · have := ih (fun m => if m = k0 then some v0 else env m) hrest
          by_cases hk : k = k0
          · rw [hk]; exact h0
          · simpa [hk] using this
      · have hshape : (applyEnvVars false ((k0, v0) :: rest) env).2 =
            (applyEnvVars false rest env).2 := by
          simp [applyEnvVars, h0]
        rw [hshape] at hmem
        exact ih env hmem

theorem applyEnvVars_unwritten (l : List (String × String)) (env : Env) (k : String)
    (hnot : k ∉ ((applyEnvVars false l env).2).map Prod.fst) :
    (applyEnvVars false l env).1 k = env k := by
  induction l generalizing env with
  | nil => rfl
  | cons kv rest ih =>
      obtain ⟨k0, v0⟩ := kv
      by_cases h0 : isMissing (env k0) = true
      · have hshape : applyEnvVars false ((k0, v0) :: rest) env =
            ((applyEnvVars false rest (fun m => if m = k0 then some v0 else env m)).1,
             (k0, v0) :: (applyEnvVars false rest (fun m => if m = k0 then some v0 else env m)).2) := by
          simp [applyEnvVars, h0]
        rw [hshape] at hnot ⊢
        simp only [List.map_cons, List.mem_cons] at hnot
        push_neg at hnot
        rw [ih (fun m => if m = k0 then some v0 else env m) hnot.2]
        simp [hnot.1]
      · have hshape : applyEnvVars false ((k0, v0) :: rest) env =
            applyEnvVars false rest env := by
          simp [applyEnvVars, h0]
        rw [hshape] at hnot ⊢
        exact ih env hnot

theorem applyEnvVars_wrote_from (l : List (String × String)) (env : Env)
    (k v : String) (hmem : (k, v) ∈ (applyEnvVars false l env).2) : (k, v) ∈ l := by
  induction l generalizing env with
  | nil => cases hmem
  | cons kv rest ih =>
      obtain ⟨k0, v0⟩ := kv
      by_cases h0 : isMissing (env k0) = true
      · have hshape : (applyEnvVars false ((k0, v0) :: rest) env).2 =
            (k0, v0) :: (applyEnvVars false rest (fun m => if m = k0 then some v0 else env m)).2 := by
          simp [applyEnvVars, h0]
        rw [hshape] at hmem
        rcases List.mem_cons.mp hmem with heq | hrest
        · rw [heq]; exact List.mem_cons_self _ _
        · exact List.mem_cons_of_mem _ (ih _ hrest)
      · have hshape : (applyEnvVars false ((k0, v0) :: rest) env).2 =
            (applyEnvVars false rest env).2 := by
          simp [applyEnvVars, h0]
        rw [hshape] at hmem
        exact List.mem_cons_of_mem _ (ih env hmem)

theorem lastWrite_none (w : List (String × String)) (k : String)
    (h : k ∉ w.map Prod.fst) : lastWrite w k = none := by
  induction w with
  | nil => rfl
  | cons p rest ih =>
      obtain ⟨pk, pv⟩ := p
      simp only [List.map_cons, List.mem_cons] at h
      push_neg at h
      simp [lastWrite, ih h.2, Ne.symm h.1]

theorem lastWrite_some_of_mem (w : List (String × String)) (k : String)
    (h : k ∈ w.map Prod.fst) : ∃ u, lastWrite w k = some u := by
  induction w with
  | nil => cases h
  | cons p rest ih =>
      obtain ⟨pk, pv⟩ := p
      by_cases hr : k ∈ rest.map Prod.fst
      · obtain ⟨u, hu⟩ := ih hr
        exact ⟨u, by simp [lastWrite, hu]⟩
      · have hk : pk = k := by
          simp only [List.map_cons, List.mem_cons] at h
          rcases h with h1 | h2
          · exact h1.symm
          · exact absurd h2 hr
        exact ⟨pv, by simp [lastWrite, lastWrite_none rest k hr, hk]⟩

theorem applyEnvVars_written (l : List (String × String)) (env : Env) (k : String)
    (hmem : k ∈ ((applyEnvVars false l env).2).map Prod.fst) :
    (applyEnvVars false l env).1 k = lastWrite (applyEnvVars false l env).2 k := by
  induction l generalizing env with
  | nil => cases hmem
  | cons kv rest ih =>
      obtain ⟨k0, v0⟩ := kv
      by_cases h0 : isMissing (env k0) = true
      · have hshape : applyEnvVars false ((k0, v0) :: rest) env =
            ((applyEnvVars false rest (fun m => if m = k0 then some v0 else env m)).1,
             (k0, v0) :: (applyEnvVars false rest (fun m => if m = k0 then some v0 else env m)).2) := by
          simp [applyEnvVars, h0]
        rw [hshape] at hmem ⊢
        by_cases hk2 : k ∈ ((applyEnvVars false rest (fun m => if m = k0 then some v0 else env m)).2).map Prod.fst
        · obtain ⟨u, hu⟩ := lastWrite_some_of_mem _ k hk2
          have := ih (fun m => if m = k0 then some v0 else env m) hk2
          simp only [lastWrite, hu]
          rw [this, hu]
        · have hkeq : k = k0 := by
            simp only [List.map_cons, List.mem_cons] at hmem
            rcases hmem with h1 | h2
            · exact h1
            · exact absurd h2 hk2
          subst hkeq
          rw [applyEnvVars_unwritten rest _ k hk2]
          simp [lastWrite, lastWrite_none _ k hk2]
      · have hshape : applyEnvVars false ((k0, v0) :: rest) env =
            applyEnvVars false rest env := by
          simp [applyEnvVars, h0]
        rw [hshape] at hmem ⊢
        exact ih env hmem

/-! ## Claim theorems -/

/-- C1: load_dataframes is all-or-nothing.  All per-table truncate/create
and insert statements run inside the single transaction of the with-block;
when any of them raises, the store afterward equals the store before the
call (full rollback, no table partially loaded relative to the others);
when none raises, every input table is committed together, each holding
exactly its projected dataset. -/
theorem load_dataframes_all_or_nothing (fault : Stmt → Bool) (c : Conn) (s : Store)
    (tables : List (String × DataFrame)) (hnd : (tables.map Prod.fst).Nodup) :
    (resultOk (load_dataframes fault c s tables).1 = false →
      (load_dataframes fault c s tables).2 = s) ∧
    (resultOk (load_dataframes fault c s tables).1 = true →
      tables.map (fun p => lookupT (load_dataframes fault c s tables).2 p.1) =
        tables.map (fun p => some (tableOf p.2))) := by
  by_cases hc : check_connection c = true
  · rcases load_run fault tables with ⟨e, he⟩ | hok
    · constructor
      · intro _
        simp [load_dataframes, hc, he s]
      · intro habs
        simp [load_dataframes, hc, he s, resultOk] at habs
    · constructor
      · intro habs
        simp [load_dataframes, hc, hok s, resultOk] at habs
      · intro _
        have hstore : (load_dataframes fault c s tables).2 = applyTables s tables := by
          simp [load_dataframes, hc, hok s]
        rw [hstore]
        refine map_congr_mem _ _ _ (fun p hp => ?_)
        obtain ⟨a, b⟩ := p
        rw [lookupT_applyTables, lastDF_of_mem tables a b hp hnd]
  · constructor
    · intro _
      simp [load_dataframes, hc]
    · intro habs
      simp [load_dataframes, hc, resultOk] at habs

/-- Witness for C1 at a concrete input: a fault on the insert into orders
makes the second block raise, and the store is rolled back to its initial
(empty) state. -/
theorem load_dataframes_all_or_nothing_witness :
    ((exTables.map Prod.fst).Nodup) ∧
    ((resultOk (load_dataframes exFault liveConn [] exTables).1 = false →
        (load_dataframes exFault liveConn [] exTables).2 = []) ∧
     (resultOk (load_dataframes exFault liveConn [] exTables).1 = true →
        exTables.map (fun p => lookupT (load_dataframes exFault liveConn [] exTables).2 p.1) =
          exTables.map (fun p => some (tableOf p.2)))) :=
  ⟨by decide, load_dataframes_all_or_nothing exFault liveConn [] exTables (by decide)⟩

/-- C2 counterexample: the loader has no Schema Registry and performs no
dependency resolution; with the line items table listed before its parent
orders table, the drop and insert sequences target order_items strictly
before orders, so the table order_items depends on is not populated
earlier. -/
theorem loader_ignores_dependency_order_cx :
    dropTargets (loadStmts exChildFirst) = ["order_items", "orders"] ∧
    insertTargets (loadStmts exChildFirst) = ["order_items", "orders"] ∧
    "orders" ∈ specRegistryDependsOn "order_items" ∧
    ¬ List.indexOf "orders" (dropTargets (loadStmts exChildFirst)) <
        List.indexOf "order_items" (dropTargets (loadStmts exChildFirst)) := by
  decide

/-- C2 amended: load_dataframes drops and inserts tables exactly in the
order of the input mapping, with no dependency reordering; tables with an
empty dataset are created but receive no insert. -/
theorem loader_populates_in_input_order (tables : List (String × DataFrame)) :
    dropTargets (loadStmts tables) = tables.map Prod.fst ∧
    insertTargets (loadStmts tables) =
      (tables.filter (fun p => !(emptyDF p.2))).map Prod.fst := by
  induction tables with
  | nil => exact ⟨rfl, rfl⟩
  | cons p rest ih =>
      obtain ⟨n, df⟩ := p
      constructor
      · rw [show loadStmts ((n, df) :: rest) = blockStmts n df ++ loadStmts rest from rfl,
          dropTargets_append, dropTargets_block, ih.1]
        rfl
      · rw [show loadStmts ((n, df) :: rest) = blockStmts n df ++ loadStmts rest from rfl,
          insertTargets_append, insertTargets_block]
        by_cases h : emptyDF df <;> simp [h, List.filter_cons, ih.2]

/-- C3 counterexample: loading a staffs table whose identity column holds
explicit ids 1..3 succeeds, yet the emitted statement list contains no
sequence adjustment at all (in particular none setting the next value to
4), and the id column is created as plain BIGINT rather than as an
identity column. -/
theorem loader_never_restores_sequences_cx :
    seqStmts (loadStmts exStaffs) = [] ∧
    (Stmt.setSequence "staffs" "staff_id" 4) ∉ loadStmts exStaffs ∧
    createColumns dfStaffs = [("staff_id", "BIGINT"), ("staff_name", "TEXT")] ∧
    resultOk (load_dataframes noFault liveConn [] exStaffs).1 = true := by
  decide

/-- C3 amended: the loader never adjusts identity sequences: for every
input table set, the statements load_dataframes emits contain no sequence
adjustment whatsoever. -/
theorem loader_never_restores_sequences (tables : List (String × DataFrame)) :
    seqStmts (loadStmts tables) = [] := by
  induction tables with
  | nil => rfl
  | cons p rest ih =>
      obtain ⟨n, df⟩ := p
      rw [show loadStmts ((n, df) :: rest) = blockStmts n df ++ loadStmts rest from rfl,
        seqStmts_append, seqStmts_block, ih]
      rfl

/-- C4: load_dataframes is idempotent.  Running it twice in succession with
the same connection, fault behavior and input tables returns the same
result and leaves every table of the store (name, schema and rows) exactly
as a single run does: each run drops and recreates the loaded tables as a
function of the input only, and a failed run rolls back to the same
starting state both times. -/
theorem load_dataframes_idempotent (fault : Stmt → Bool) (c : Conn) (s : Store)
    (tables : List (String × DataFrame)) (m : String) :
    (load_dataframes fault c (load_dataframes fault c s tables).2 tables).1 =
      (load_dataframes fault c s tables).1 ∧
    lookupT (load_dataframes fault c (load_dataframes fault c s tables).2 tables).2 m =
      lookupT (load_dataframes fault c s tables).2 m := by
  by_cases hc : check_connection c = true
  · rcases load_run fault tables with ⟨e, he⟩ | hok
    · simp [load_dataframes, hc, he]
    · have h1 : load_dataframes fault c s tables = (.ok (), applyTables s tables) := by
        simp [load_dataframes, hc, hok s]
      have h2 : load_dataframes fault c (applyTables s tables) tables =
          (.ok (), applyTables (applyTables s tables) tables) := by
        simp [load_dataframes, hc, hok _]
      rw [h1, h2]
      refine ⟨rfl, ?_⟩
      rw [lookupT_applyTables, lookupT_applyTables]
      cases lastDF tables m <;> rfl
  · simp [load_dataframes, hc]

/-- C5 counterexample: the loader does not project datasets onto a declared
destination schema.  Loading order_summary from a dataset with columns
order_id and extra inserts exactly those two columns: the extra source
column is kept although the declared destination columns of order_summary
do not contain it, the required declared column order_date is absent from
the dataset, and the load still succeeds instead of raising. -/
theorem loader_does_not_project_cx :
    insertColumnsPairs (loadStmts exSummary) = [("order_summary", ["order_id", "extra"])] ∧
    "extra" ∉ specColumnsFor "order_summary" ∧
    "order_date" ∈ specColumnsFor "order_summary" ∧
    resultOk (load_dataframes noFault liveConn [] exSummary).1 = true := by
  decide

/-- C5 amended: the destination schema is derived from the dataset itself:
every created table carries exactly the dataset columns in dataset order
(or a lone serial id column when the dataset has no columns), and every
insert lists exactly the dataset columns; no projection onto a declared
schema and no missing-column check occurs. -/
theorem loader_uses_dataset_columns (tables : List (String × DataFrame)) :
    createColumnsPairs (loadStmts tables) =
      tables.map (fun p => (p.1, if p.2.cols.isEmpty then ["id"] else p.2.colNames)) ∧
    insertColumnsPairs (loadStmts tables) =
      (tables.filter (fun p => !(emptyDF p.2))).map (fun p => (p.1, p.2.colNames)) := by
  induction tables with
  | nil => exact ⟨rfl, rfl⟩
  | cons p rest ih =>
      obtain ⟨n, df⟩ := p
      constructor
      · rw [show loadStmts ((n, df) :: rest) = blockStmts n df ++ loadStmts rest from rfl,
          createColumnsPairs_append, createColumnsPairs_block, ih.1]
        rfl
      · rw [show loadStmts ((n, df) :: rest) = blockStmts n df ++ loadStmts rest from rfl,
          insertColumnsPairs_append, insertColumnsPairs_block]
        by_cases h : emptyDF df <;> simp [h, List.filter_cons, ih.2]

/-- C6: when the liveness probe fails (the trivial SELECT 1 round trip
cannot execute), load_dataframes raises the operational error with the
probe failure message and performs no writes: the store it returns is
exactly the input store. -/
theorem load_dataframes_dead_probe (fault : Stmt → Bool) (s : Store)
    (tables : List (String × DataFrame)) :
    check_connection ⟨false⟩ = false ∧
    load_dataframes fault ⟨false⟩ s tables =
      (.error (.operationalError "Database connection test failed"), s) := by
  constructor
  · rfl
  · simp [load_dataframes, check_connection]

/-- C7: when any of the five required environment values is absent or
empty, build_connection_from_env raises a ValueError naming every missing
variable (not only the first) before any connection attempt: the result is
the configuration error carrying exactly the prefixed names of all missing
keys, and the statement trace is empty. -/
theorem build_connection_reports_all_missing (pfx : String) (env : Env)
    (first : ConnectRes) (createRes : CreateRes) (second : ConnectRes)
    (h : missingKeys pfx env ≠ []) :
    build_connection_from_env pfx env first createRes second =
      (.configError ((missingKeys pfx env).map (fun k => pfx ++ "_" ++ k)), []) := by
  have hne : (missingKeys pfx env).isEmpty = false := by
    cases hk : missingKeys pfx env with
    | nil => exact absurd hk h
    | cons a l => rfl
  simp [build_connection_from_env, hne]

/-- Witness for C7 at the concrete environment with HOST absent and
PASSWORD empty: the error lists exactly POSTGRES_PASSWORD and
POSTGRES_HOST, in the order the code checks the keys. -/
theorem build_connection_reports_all_missing_witness :
    missingKeys "POSTGRES" exEnvPartial ≠ [] ∧
    build_connection_from_env "POSTGRES" exEnvPartial .ok .created .ok =
      (.configError ["POSTGRES_PASSWORD", "POSTGRES_HOST"], []) :=
  ⟨by decide,
   (build_connection_reports_all_missing "POSTGRES" exEnvPartial .ok .created .ok
      (by decide)).trans (by decide)⟩

/-- C8 counterexample: the auto-create fallback is not limited to the
missing-database case.  An operational error whose server-side cause is a
missing role, but whose message contains the text "does not exist", drives
the code into the fallback: a CREATE DATABASE statement is issued and the
retried connection is returned, instead of the original error propagating
unchanged. -/
theorem autocreate_not_only_missing_database_cx :
    roleError.cause ≠ ErrCause.databaseMissing ∧
    connect_with_database_creation "etl_db" (.opFail roleError) .created .ok =
      (.connectedRetry, [.createDatabase "etl_db"]) ∧
    (ConnResult.connectedRetry, [Stmt.createDatabase "etl_db"]) ≠
      ((ConnResult.raisedOp roleError), ([] : List Stmt)) := by
  decide

/-- C8 amended: the fallback triggers exactly when the first attempt raises
an operational error whose lowercased message contains "does not exist"
(which the canonical missing-database message does, but other errors can
too).  When triggered and the creation step runs (created, or the benign
concurrent duplicate-database race, which is swallowed), a CREATE DATABASE
statement goes to the admin database and the original connection is
retried once, the retry outcome final.  Operational errors without that
text, and non-operational failures, propagate unchanged with no admin
statement. -/
theorem autocreate_guard_characterization (db : String) (e : OpError) (d : String)
    (createRes : CreateRes) (second : ConnectRes) :
    (msgSaysDoesNotExist e.msg = false →
      connect_with_database_creation db (.opFail e) createRes second = (.raisedOp e, [])) ∧
    (connect_with_database_creation db .ok createRes second = (.connectedFirst, [])) ∧
    (connect_with_database_creation db (.otherFail d) createRes second = (.raisedOther d, [])) ∧
    (msgSaysDoesNotExist e.msg = true →
      connect_with_database_creation db (.opFail e) .created second =
        (retryOutcome second, [.createDatabase db]) ∧
      connect_with_database_creation db (.opFail e) .duplicateDatabase second =
        (retryOutcome second, [.createDatabase db])) ∧
    msgSaysDoesNotExist (missingDbMessage "etl_db") = true := by
  refine ⟨?_, rfl, rfl, ?_, by decide⟩
  · intro h
    simp [connect_with_database_creation, h]
  · intro h
    exact ⟨by simp [connect_with_database_creation, h],
           by simp [connect_with_database_creation, h]⟩

/-- Witness for C8 amended at concrete errors: an authentication failure
propagates unchanged with no admin statement, while the canonical
missing-database error leads to CREATE DATABASE and a successful retry. -/
theorem autocreate_guard_characterization_witness :
    (msgSaysDoesNotExist otherOpError.msg = false ∧
     connect_with_database_creation "etl_db" (.opFail otherOpError) .created .ok =
       (.raisedOp otherOpError, [])) ∧
    (msgSaysDoesNotExist missingDbError.msg = true ∧
     connect_with_database_creation "etl_db" (.opFail missingDbError) .created .ok =
       (.connectedRetry, [.createDatabase "etl_db"])) :=
  ⟨⟨by decide,
    (autocreate_guard_characterization "etl_db" otherOpError "x" .created .ok).1 (by decide)⟩,
   ⟨by decide,
    (((autocreate_guard_characterization "etl_db" missingDbError "x" .created .ok).2.2.2.1
        (by decide)).1).trans (by decide)⟩⟩

/-- C9 counterexample: the read-only CLI commands connect through the same
auto-creating connection path as the loader; starting from a server where
the target database is missing, the tables command issues a CREATE
DATABASE statement — a statement that mutates persisted server state. -/
theorem cli_commands_can_create_database_cx :
    Stmt.createDatabase "etl_db" ∈
      commandTablesTrace emptyEnv (.opFail missingDbError) .created .ok ["orders"] ∧
    (commandTablesTrace emptyEnv (.opFail missingDbError) .created .ok ["orders"]).any
      mutating = true := by
  decide

/-- C9 amended: apart from the database auto-creation the connection step
may perform when the target database is missing, the tables, preview and
overview commands are read-only: whenever the first connection attempt
succeeds, every statement each of them issues is non-mutating. -/
theorem cli_commands_readonly_when_database_exists (env : Env) (createRes : CreateRes)
    (second : ConnectRes) (names : List String) (t : String) (lim : Int)
    (tableCounts : List (String × Nat)) :
    (commandTablesTrace env .ok createRes second names).all
      (fun st => !(mutating st)) = true ∧
    (commandPreviewTrace env .ok createRes second t lim).all
      (fun st => !(mutating st)) = true ∧
    (commandOverviewTrace env .ok createRes second tableCounts lim).all
      (fun st => !(mutating st)) = true := by
  refine ⟨?_, ?_, ?_⟩
  · simp only [commandTablesTrace]
    rw [build_ok_trace]
    simpa using connQueries_all _ _ (reads_tables_all names)
  · simp only [commandPreviewTrace]
    rw [build_ok_trace]
    simpa using connQueries_all _ _ (reads_preview_all t lim)
  · simp only [commandOverviewTrace]
    rw [build_ok_trace]
    simpa using connQueries_all _ _ (reads_overview_all tableCounts lim)

/-- C10: with overwrite disabled, set_postgres_env leaves every key whose
current value is non-empty untouched and never reports it as written,
writes only keys whose current value is absent or empty and only with
values from the effective mapping (defaults overridden by the supplied
map), leaves every unreported key unchanged, and ends with every reported
key holding the last value reported for it — the returned pairs are
exactly the writes performed. -/
theorem set_postgres_env_frame (varsMap : List (String × String)) (env : Env)
    (k v : String) :
    ((env k = some v ∧ v ≠ "") → (set_postgres_env varsMap false env).1 k = env k) ∧
    ((k, v) ∈ (set_postgres_env varsMap false env).2 → isMissing (env k) = true) ∧
    (k ∉ ((set_postgres_env varsMap false env).2).map Prod.fst →
      (set_postgres_env varsMap false env).1 k = env k) ∧
    ((k, v) ∈ (set_postgres_env varsMap false env).2 →
      (k, v) ∈ updateAssoc postgresEnvDefaults varsMap) ∧
    (k ∈ ((set_postgres_env varsMap false env).2).map Prod.fst →
      (set_postgres_env varsMap false env).1 k =
        lastWrite (set_postgres_env varsMap false env).2 k) := by
  refine ⟨?_, ?_, ?_, ?_, ?_⟩
  · rintro ⟨hv, hne⟩
    refine applyEnvVars_keep _ env k ?_
    simp [isMissing, hv, hne]
  · exact fun hmem => applyEnvVars_wrote_missing _ env k v hmem
  · exact fun hnot => applyEnvVars_unwritten _ env k hnot
  · exact fun hmem => applyEnvVars_wrote_from _ env k v hmem
  · exact fun hmem => applyEnvVars_written _ env k hmem

/-- Witness for C10 at a concrete environment and override map: the
non-empty USER value survives untouched, and the empty PASSWORD value was
eligible for writing (and is in fact written with the default). -/
theorem set_postgres_env_frame_witness :
    (exEnvPre "POSTGRES_USER" = some "keepme" ∧ "keepme" ≠ "") ∧
    (set_postgres_env exVarsMap false exEnvPre).1 "POSTGRES_USER" =
      exEnvPre "POSTGRES_USER" ∧
    ("POSTGRES_PASSWORD", "etl_password") ∈ (set_postgres_env exVarsMap false exEnvPre).2 ∧
    isMissing (exEnvPre "POSTGRES_PASSWORD") = true :=
  ⟨⟨by decide, by decide⟩,
   (set_postgres_env_frame exVarsMap exEnvPre "POSTGRES_USER" "keepme").1
     ⟨by decide, by decide⟩,
   by decide,
   (set_postgres_env_frame exVarsMap exEnvPre "POSTGRES_PASSWORD" "etl_password").2.1
     (by decide)⟩
